import Mathlib

/-!
Shallow embedding of the dependency-injection container in
`src/include/needs.hpp`: the value-wrapper hierarchy (`value_wrapper`,
`ptr_wrapper`, `uptr_wrapper`, `sptr_wrapper`), the per-type identifier
`type_id`, and the container `needs<...>` with its `get`, `set` overloads and
`verify_type` helper.

Modelling conventions:
- C++ types that can be passed to `type_id<T>` are modelled by the inductive
  `CTy`, listing the capability/implementation types appearing in the
  repository.
- `type_id<T>` returns `(size_t)&type<T>::uid`, the address of the static
  member function `type<T>::uid`.  Each distinct instantiation of the class
  template `type` produces a distinct function with a distinct, process-stable
  address; the embedding fixes one such address assignment (arbitrary distinct
  numerals), which is exactly the information the C++ object model guarantees.
- Raw pointers, `std::unique_ptr` and `std::shared_ptr` are modelled as
  `Option Nat`: `none` is the null/empty handle, `some a` a handle to the heap
  object at address `a`.
- The stored values of capability implementations are drawn from an arbitrary
  type `V` (instantiated to `Nat` in concrete computations).
- `std::map<size_t, std::unique_ptr<base_wrapper>>` is modelled as an
  association list `List (Nat × Option (Wrapper V))` with unique keys in all
  reachable states; `mapPut` models `operator[]` assignment (replace the
  entry if the key is present, insert otherwise), `mapIndex` models
  `operator[]` read access (which inserts a default-constructed -- null --
  entry when the key is absent, as `std::map::operator[]` does).
- Throwing is modelled with `Except CppError`; an operation returns the
  post-state alongside the result so that what happens to the container on a
  throw is part of the model, not an assumption.
- The only RAII effect the claims observe is that `unique_ptr::reset` runs the
  destructor of the previously managed wrapper; the ghost field `destroyed`
  records, in order, the wrappers whose destructors have run because a slot
  was overwritten.  It is instrumentation, not program data.
-/

/-- Equality of `Except` results is decidable; used to evaluate concrete runs
of the embedded operations. -/
instance {ε α : Type} [DecidableEq ε] [DecidableEq α] : DecidableEq (Except ε α) := fun x y =>
  match x, y with
  | .ok a, .ok b =>
    if h : a = b then .isTrue (congrArg Except.ok h)
    else .isFalse fun c => h (Except.ok.inj c)
  | .error a, .error b =>
    if h : a = b then .isTrue (congrArg Except.error h)
    else .isFalse fun c => h (Except.error.inj c)
  | .ok _, .error _ => .isFalse fun c => Except.noConfusion c
  | .error _, .ok _ => .isFalse fun c => Except.noConfusion c

/-- The C++ exceptions thrown by `needs.hpp`: `std::invalid_argument` and
`std::runtime_error`, each carrying its message string. -/
inductive CppError where
  | invalid_argument (msg : String)
  | runtime_error (msg : String)
deriving DecidableEq, Repr

/-- The C++ types of the repository that are used as template arguments of
`type<T>` / `type_id<T>`: the capability interfaces and the concrete
implementations from the demo translation unit. -/
inductive CTy where
  | IPrint
  | IDuck
  | PrintHello
  | StdoutDuck
deriving DecidableEq, Repr

/-- `type_id<T>() { return (size_t)&type<T>::uid; }` (needs.hpp:132-133).
The value is the address of the static function `type<T>::uid` instantiated
for `T`; distinct instantiations are distinct functions at distinct addresses,
stable for the life of the process.  The embedding fixes a concrete such
address assignment. -/
def type_id : CTy → Nat
  | .IPrint => 4096
  | .IDuck => 4160
  | .PrintHello => 4224
  | .StdoutDuck => 4288

/-- A constructed wrapper object, i.e. one concrete subclass instance of
`base_wrapper` (needs.hpp:15-18).  The variants are the four wrapper classes:
`value v` is `value_wrapper` holding the value `v` inline (needs.hpp:50-60);
`ptr a` is `ptr_wrapper` borrowing the object at address `a` (needs.hpp:71-86);
`uptr a` is `uptr_wrapper` exclusively owning the heap object at address `a`
(needs.hpp:88-101); `sptr a` is `sptr_wrapper` co-owning the heap object at
address `a` (needs.hpp:103-116). -/
inductive Wrapper (V : Type) where
  | value (v : V)
  | ptr (a : Nat)
  | uptr (a : Nat)
  | sptr (a : Nat)
deriving DecidableEq, Repr

/-- The result of dereferencing the `T*` returned by a wrapper `get`:
`toOwned v` is a pointer into the wrapper itself (the inline `value` field of
a `value_wrapper`, whose pointed-to value is `v`); `toHeap a` is a pointer to
the caller-visible object at heap address `a`. -/
inductive PtrVal (V : Type) where
  | toOwned (v : V)
  | toHeap (a : Nat)
deriving DecidableEq, Repr

/-- `value_wrapper<T, X>::value_wrapper(X v) { value = std::move(v); }`
(needs.hpp:52-54): always succeeds, moves the value in. -/
def value_wrapper.mk {V : Type} (v : V) : Wrapper V :=
  .value v

/-- `ptr_wrapper<T>::ptr_wrapper(T& v) { ptr = &v; }` (needs.hpp:73): a
reference is never null, so there is no check; it stores the address of the
referent. -/
def ptr_wrapper.ofRef {V : Type} (a : Nat) : Wrapper V :=
  .ptr a

/-- `ptr_wrapper<T>::ptr_wrapper(T* v)` (needs.hpp:75-81): stores the pointer
if non-null, otherwise throws `std::invalid_argument("Null raw pointer!")`. -/
def ptr_wrapper.ofRaw {V : Type} (p : Option Nat) : Except CppError (Wrapper V) :=
  match p with
  | some a => .ok (.ptr a)
  | none => .error (.invalid_argument "Null raw pointer!")

/-- `uptr_wrapper<T>::uptr_wrapper(std::unique_ptr<T> v)` (needs.hpp:90-96):
takes ownership if the handle is non-empty, otherwise throws
`std::invalid_argument("Null unique pointer!")`. -/
def uptr_wrapper.mk {V : Type} (p : Option Nat) : Except CppError (Wrapper V) :=
  match p with
  | some a => .ok (.uptr a)
  | none => .error (.invalid_argument "Null unique pointer!")

/-- `sptr_wrapper<T>::sptr_wrapper(std::shared_ptr<T> v)` (needs.hpp:105-111):
becomes a co-owner if the handle is non-empty, otherwise throws
`std::invalid_argument("Null shared pointer!")`. -/
def sptr_wrapper.mk {V : Type} (p : Option Nat) : Except CppError (Wrapper V) :=
  match p with
  | some a => .ok (.sptr a)
  | none => .error (.invalid_argument "Null shared pointer!")

/-- The typed pointer returned by a wrapper: `value_wrapper::get` returns
`&value` (a pointer into the wrapper, needs.hpp:56), the three pointer
wrappers return the stored pointer (needs.hpp:83, 98, 113). -/
def Wrapper.get {V : Type} : Wrapper V → PtrVal V
  | .value v => .toOwned v
  | .ptr a => .toHeap a
  | .uptr a => .toHeap a
  | .sptr a => .toHeap a

/-- First entry of the association list with key `k`, if any.  Reachable
container states have unique keys, so this is `std::map` lookup. -/
def mapLookup {α : Type} : List (Nat × α) → Nat → Option α
  | [], _ => none
  | (k', w) :: rest, k => if k' = k then some w else mapLookup rest k

/-- `values.count(key) != 0` for `std::map` (keys unique, so count is 0 or 1),
as used by `verify_type` (needs.hpp:222). -/
def mapContains {α : Type} (m : List (Nat × α)) (k : Nat) : Bool :=
  (mapLookup m k).isSome

/-- `map::operator[]` assignment `m[k] = w`: replace the mapped value if `k`
is present, insert the entry otherwise. -/
def mapPut {α : Type} : List (Nat × α) → Nat → α → List (Nat × α)
  | [], k, w => [(k, w)]
  | (k', w') :: rest, k, w =>
      if k' = k then (k, w) :: rest else (k', w') :: mapPut rest k w

/-- `map::operator[]` read access `m[k]`: returns the mapped value, inserting
a default-constructed (null `unique_ptr`) entry first when `k` is absent. -/
def mapIndex {V : Type} (m : List (Nat × Option (Wrapper V))) (k : Nat) :
    Option (Wrapper V) × List (Nat × Option (Wrapper V)) :=
  match mapLookup m k with
  | some w => (w, m)
  | none => (none, mapPut m k none)

/-- The container `needs<...Needs>` (needs.hpp:137-229).  `values` is the
member `std::map<size_t, std::unique_ptr<base_wrapper>> values` (a `none`
mapped value is a null `unique_ptr`, i.e. an empty slot).  `destroyed` is
ghost instrumentation: the wrappers whose destructors `unique_ptr::reset` has
run, in order, when slots were overwritten. -/
structure needs (V : Type) where
  values : List (Nat × Option (Wrapper V))
  destroyed : List (Wrapper V)
deriving DecidableEq, Repr

/-- The constructor `needs()` (needs.hpp:139-145): for each declared type `t`
in order, `values[type_id<t>()] = std::unique_ptr<base_wrapper>(nullptr)`. -/
def needs.init {V : Type} (decl : List CTy) : needs V :=
  { values := decl.foldl (fun m t => mapPut m (type_id t) none) []
    destroyed := [] }

/-- `verify_type<T>()` (needs.hpp:219-228): returns `type_id<T>()` if the key
is in the map, otherwise throws
`std::invalid_argument("Type specified is not a need!")`. -/
def needs.verify_type {V : Type} (s : needs V) (t : CTy) : Except CppError Nat :=
  let key := type_id t
  if mapContains s.values key then .ok key
  else .error (.invalid_argument "Type specified is not a need!")

/-- `get<X>()` (needs.hpp:152-161): verify the type, read the slot through
`values[key]`, return the wrapper pointer cast to `X*` if the slot holds a
wrapper, otherwise throw `std::runtime_error("Need type never set!")`.  The
post-state is returned alongside the result. -/
def needs.get {V : Type} (s : needs V) (t : CTy) :
    Except CppError (PtrVal V) × needs V :=
  match s.verify_type t with
  | .error e => (.error e, s)
  | .ok key =>
    let r := mapIndex s.values key
    let s' : needs V := { s with values := r.2 }
    match r.1 with
    | some w => (.ok w.get, s')
    | none => (.error (.runtime_error "Need type never set!"), s')

/-- How a value is passed to one of the `set` overloads of `needs`
(needs.hpp:172-209): `byValue v` is `set<T, X>(X v)` (and its `X = T`
default), `byRef a` is `set<T>(T& v)` with a referent at address `a`,
`byRawPtr p` is `set<T, X>(X* v)` / `set<T>(T* v)`, and `byUniquePtr p` is
`set<T>(std::unique_ptr<T> v)`.  There is no overload taking a
`std::shared_ptr`. -/
inductive set_arg (V : Type) where
  | byValue (v : V)
  | byRef (a : Nat)
  | byRawPtr (p : Option Nat)
  | byUniquePtr (p : Option Nat)
deriving DecidableEq, Repr

/-- The wrapper each `set` overload constructs with `new` before resetting the
slot: `set(X v)` builds `value_wrapper<T, X>` (needs.hpp:175), `set(T& v)` and
`set(X* v)` / `set(T* v)` build `ptr_wrapper<T>` (needs.hpp:190, 196, 202),
and `set(std::unique_ptr<T> v)` builds `sptr_wrapper<T>` (needs.hpp:208), the
`unique_ptr` being implicitly converted to a `shared_ptr` -- note it does NOT
build a `uptr_wrapper`, which no code in the repository instantiates. -/
def set_arg.make_wrapper {V : Type} : set_arg V → Except CppError (Wrapper V)
  | .byValue v => .ok (value_wrapper.mk v)
  | .byRef a => .ok (ptr_wrapper.ofRef a)
  | .byRawPtr p => ptr_wrapper.ofRaw p
  | .byUniquePtr p => sptr_wrapper.mk p

/-- The `set` overloads (needs.hpp:172-209), all of the shape
`size_t key = verify_type<T>(); values[key].reset(new <wrapper>(...));`.
If `verify_type` throws, nothing has been executed; if the wrapper
constructor throws inside the `new` expression, `reset` is never called; in
both cases the container is unchanged.  On success `reset` destroys the
wrapper previously in the slot (recorded in `destroyed`) and installs the new
one. -/
def needs.set {V : Type} (s : needs V) (t : CTy) (arg : set_arg V) :
    Except CppError Unit × needs V :=
  match s.verify_type t with
  | .error e => (.error e, s)
  | .ok key =>
    match arg.make_wrapper with
    | .error e => (.error e, s)
    | .ok w =>
      let r := mapIndex s.values key
      (.ok (), { values := mapPut r.2 key (some w)
                 destroyed := s.destroyed ++ r.1.toList })

/-- The key set of the container: the domain of the member map. -/
def needs.keys {V : Type} (s : needs V) : List Nat :=
  s.values.map Prod.fst

/-- The slot of capability type `t`: `none` if the container has no key for
`t`, `some none` if the slot exists and is empty (null `unique_ptr`),
`some (some w)` if the slot holds the wrapper `w`. -/
def needs.slot {V : Type} (s : needs V) (t : CTy) : Option (Option (Wrapper V)) :=
  mapLookup s.values (type_id t)

/-- A concrete populated container used as a test state: declared for
`IPrint`, with its slot set by value to 5. -/
def c6_state : needs Nat :=
  ((needs.init [CTy.IPrint]).set .IPrint (.byValue 5)).2

theorem mapLookup_mapPut_self {α : Type} (m : List (Nat × α)) (k : Nat) (w : α) :
    mapLookup (mapPut m k w) k = some w := by
  induction m with
  | nil => simp [mapPut, mapLookup]
  | cons e rest ih =>
    obtain ⟨k', w'⟩ := e
    by_cases h : k' = k <;> simp [mapPut, mapLookup, h, ih]

theorem mapLookup_mapPut_ne {α : Type} (m : List (Nat × α)) (k k' : Nat) (w : α)
    (h : k' ≠ k) : mapLookup (mapPut m k w) k' = mapLookup m k' := by
  have hk : ¬(k = k') := fun c => h c.symm
  induction m with
  | nil => simp [mapPut, mapLookup, hk]
  | cons e rest ih =>
    obtain ⟨k'', w''⟩ := e
    by_cases h2 : k'' = k
    · subst h2
      simp [mapPut, mapLookup, hk, h]
    · simp [mapPut, mapLookup, h2, ih]

theorem mapContains_mapPut {α : Type} (m : List (Nat × α)) (k k' : Nat) (w : α) :
    mapContains (mapPut m k w) k' = (mapContains m k' || decide (k = k')) := by
  by_cases h : k = k'
  · subst h; simp [mapContains, mapLookup_mapPut_self]
  · simp [mapContains, mapLookup_mapPut_ne m k k' w (fun c => h c.symm), h]

theorem keys_mapPut_of_contains {α : Type} (m : List (Nat × α)) (k : Nat) (w : α)
    (h : mapContains m k = true) : (mapPut m k w).map Prod.fst = m.map Prod.fst := by
  induction m with
  | nil => simp [mapContains, mapLookup] at h
  | cons e rest ih =>
    obtain ⟨k', w'⟩ := e
    by_cases h2 : k' = k
    · simp [mapPut, h2]
    · simp [mapContains, mapLookup, h2] at h
      simp [mapPut, h2, ih h]

theorem keys_mapPut_of_not_contains {α : Type} (m : List (Nat × α)) (k : Nat) (w : α)
    (h : mapContains m k = false) :
    (mapPut m k w).map Prod.fst = m.map Prod.fst ++ [k] := by
  induction m with
  | nil => simp [mapPut]
  | cons e rest ih =>
    obtain ⟨k', w'⟩ := e
    by_cases h2 : k' = k
    · simp [mapContains, mapLookup, h2] at h
    · simp [mapContains, mapLookup, h2] at h
      simp [mapPut, h2, ih (by simp [mapContains, h])]

theorem mem_keys_iff_contains {α : Type} (m : List (Nat × α)) (k : Nat) :
    k ∈ m.map Prod.fst ↔ mapContains m k = true := by
  induction m with
  | nil => simp [mapContains, mapLookup]
  | cons e rest ih =>
    obtain ⟨k', w'⟩ := e
    by_cases h : k' = k
    · simp [mapContains, mapLookup, h]
    · have hk : ¬(k = k') := fun c => h c.symm
      simp [mapContains, mapLookup, h, hk, ih]

theorem keys_nodup_mapPut {α : Type} (m : List (Nat × α)) (k : Nat) (w : α)
    (h : (m.map Prod.fst).Nodup) : ((mapPut m k w).map Prod.fst).Nodup := by
  by_cases hc : mapContains m k
  · rw [keys_mapPut_of_contains m k w hc]; exact h
  · rw [keys_mapPut_of_not_contains m k w (by simpa using hc)]
    have hk : k ∉ m.map Prod.fst := by
      rw [mem_keys_iff_contains]; simpa using hc
    refine h.append (List.nodup_singleton k) ?_
    intro a ha hb
    simp at hb
    subst hb
    exact hk ha

theorem mapLookup_mem {α : Type} (m : List (Nat × α)) (k : Nat) (w : α)
    (h : mapLookup m k = some w) : (k, w) ∈ m := by
  induction m with
  | nil => simp [mapLookup] at h
  | cons e rest ih =>
    obtain ⟨k', w'⟩ := e
    by_cases h2 : k' = k
    · subst h2
      simp [mapLookup] at h
      simp [h]
    · simp [mapLookup, h2] at h
      simp [ih h]

theorem mapIndex_of_lookup {V : Type} (m : List (Nat × Option (Wrapper V))) (k : Nat)
    (w : Option (Wrapper V)) (h : mapLookup m k = some w) : mapIndex m k = (w, m) := by
  simp [mapIndex, h]

theorem type_id_inj (t₁ t₂ : CTy) (h : type_id t₁ = type_id t₂) : t₁ = t₂ := by
  revert h
  cases t₁ <;> cases t₂ <;> decide

theorem needs.get_state {V : Type} (s : needs V) (t : CTy) : (s.get t).2 = s := by
  by_cases h : mapContains s.values (type_id t)
  · cases hl : mapLookup s.values (type_id t) with
    | none => simp [mapContains, hl] at h
    | some w =>
      cases w with
      | none => simp [needs.get, needs.verify_type, h, mapIndex, hl]
      | some wr => simp [needs.get, needs.verify_type, h, mapIndex, hl]
  · simp [needs.get, needs.verify_type, h]

theorem needs.get_of_undeclared {V : Type} (s : needs V) (t : CTy)
    (h : mapContains s.values (type_id t) = false) :
    s.get t = (.error (.invalid_argument "Type specified is not a need!"), s) := by
  simp [needs.get, needs.verify_type, h]

theorem needs.set_of_undeclared {V : Type} (s : needs V) (t : CTy) (arg : set_arg V)
    (h : mapContains s.values (type_id t) = false) :
    s.set t arg = (.error (.invalid_argument "Type specified is not a need!"), s) := by
  simp [needs.set, needs.verify_type, h]

theorem needs.set_of_declared {V : Type} (s : needs V) (t : CTy) (arg : set_arg V)
    (prev : Option (Wrapper V)) (w : Wrapper V)
    (hl : mapLookup s.values (type_id t) = some prev)
    (hw : arg.make_wrapper = .ok w) :
    s.set t arg = (.ok (), { values := mapPut s.values (type_id t) (some w)
                             destroyed := s.destroyed ++ prev.toList }) := by
  have hc : mapContains s.values (type_id t) = true := by simp [mapContains, hl]
  simp [needs.set, needs.verify_type, hc, hw, mapIndex, hl]

theorem needs.get_after_put {V : Type} (s : needs V) (t : CTy) (w : Wrapper V)
    (hl : mapLookup s.values (type_id t) = some (some w)) :
    s.get t = (.ok w.get, s) := by
  have hc : mapContains s.values (type_id t) = true := by simp [mapContains, hl]
  simp [needs.get, needs.verify_type, hc, mapIndex, hl]

theorem mapContains_foldl_init {V : Type} (decl : List CTy)
    (m : List (Nat × Option (Wrapper V))) (k : Nat) :
    mapContains (decl.foldl (fun m t => mapPut m (type_id t) none) m) k
      = (mapContains m k || decl.any fun t => decide (type_id t = k)) := by
  induction decl generalizing m with
  | nil => simp
  | cons t rest ih =>
    simp [List.foldl, ih, mapContains_mapPut, Bool.or_assoc]

theorem needs.contains_init_iff {V : Type} (decl : List CTy) (t : CTy) :
    mapContains (needs.init decl : needs V).values (type_id t) = true ↔ t ∈ decl := by
  have hv : (needs.init decl : needs V).values
      = decl.foldl (fun m t => mapPut m (type_id t) none) [] := rfl
  rw [hv, mapContains_foldl_init]
  simp [List.any_eq_true, mapContains, mapLookup]
  constructor
  · rintro ⟨u, hu, he⟩
    exact (type_id_inj u t he) ▸ hu
  · intro ht
    exact ⟨t, ht, rfl⟩

theorem mapPut_values_none {V : Type} (m : List (Nat × Option (Wrapper V))) (k : Nat)
    (h : ∀ e ∈ m, e.2 = (none : Option (Wrapper V))) :
    ∀ e ∈ mapPut m k none, e.2 = (none : Option (Wrapper V)) := by
  induction m with
  | nil => simp [mapPut]
  | cons e rest ih =>
    obtain ⟨k', w'⟩ := e
    by_cases h2 : k' = k
    · simp [mapPut, h2]
      exact fun a b hab => h (a, b) (by simp [hab])
    · simp [mapPut, h2]
      constructor
      · exact h (k', w') (by simp)
      · intro a b hab
        exact ih (fun e he => h e (by simp [he])) (a, b) hab

theorem needs.init_values_none {V : Type} (decl : List CTy) :
    ∀ e ∈ (needs.init decl : needs V).values, e.2 = (none : Option (Wrapper V)) := by
  suffices hs : ∀ m : List (Nat × Option (Wrapper V)),
      (∀ e ∈ m, e.2 = (none : Option (Wrapper V))) →
      ∀ e ∈ decl.foldl (fun m t => mapPut m (type_id t) none) m,
        e.2 = (none : Option (Wrapper V)) by
    exact hs [] (by simp)
  induction decl with
  | nil => exact fun m hm => hm
  | cons t rest ih =>
    intro m hm
    exact ih (mapPut m (type_id t) none) (mapPut_values_none m (type_id t) hm)

theorem needs.set_keys {V : Type} (s : needs V) (t : CTy) (arg : set_arg V) :
    ((s.set t arg).2).keys = s.keys := by
  by_cases h : mapContains s.values (type_id t)
  · cases hl : mapLookup s.values (type_id t) with
    | none => simp [mapContains, hl] at h
    | some w =>
      cases hw : arg.make_wrapper with
      | error e => simp [needs.set, needs.verify_type, h, hw]
      | ok wr =>
        rw [needs.set_of_declared s t arg w wr hl hw]
        simpa [needs.keys] using keys_mapPut_of_contains s.values (type_id t) (some wr) h
  · simp [needs.set, needs.verify_type, h]

theorem needs.init_keys_nodup {V : Type} (decl : List CTy) :
    ((needs.init decl : needs V).keys).Nodup := by
  suffices hs : ∀ m : List (Nat × Option (Wrapper V)), (m.map Prod.fst).Nodup →
      ((decl.foldl (fun m t => mapPut m (type_id t) none) m).map Prod.fst).Nodup by
    exact hs [] (by simp)
  induction decl with
  | nil => exact fun m hm => hm
  | cons t rest ih =>
    intro m hm
    exact ih (mapPut m (type_id t) none) (keys_nodup_mapPut m (type_id t) none hm)

/-- C1: evaluation of the four passing modes on a declared slot.  A bare value
installs the inline-owning `value_wrapper` and a raw pointer or reference
installs the borrowing `ptr_wrapper`, as the claim says; but passing a
uniquely-owned pointer (`set(std::unique_ptr<T>)`, needs.hpp:205-209) installs
the SHARED `sptr_wrapper`, not the exclusively-owned `uptr_wrapper` -- the
exclusive-transfer intent is silently changed to co-ownership, and
`uptr_wrapper` is never instantiated by any `set` overload. -/
theorem C1_unique_ptr_installs_shared_wrapper :
    ((needs.init [CTy.IPrint] : needs Nat).set .IPrint (.byValue 5)).2.slot .IPrint
        = some (some (.value 5))
    ∧ ((needs.init [CTy.IPrint] : needs Nat).set .IPrint (.byRef 3)).2.slot .IPrint
        = some (some (.ptr 3))
    ∧ ((needs.init [CTy.IPrint] : needs Nat).set .IPrint (.byRawPtr (some 3))).2.slot .IPrint
        = some (some (.ptr 3))
    ∧ ((needs.init [CTy.IPrint] : needs Nat).set .IPrint (.byUniquePtr (some 7))).2.slot .IPrint
        = some (some (.sptr 7))
    ∧ (Wrapper.sptr 7 : Wrapper Nat) ≠ .uptr 7 :=
  ⟨by decide, by decide, by decide, by decide, by decide⟩

/-- C2 counterexample: on a container declared for `IPrint, IDuck`, setting or
getting the undeclared `StdoutDuck` throws `std::invalid_argument` whose
message is `"Type specified is not a need!"` (needs.hpp:225), not the
lower-case `"type specified is not a need"` stated by the claim. -/
theorem C2_message_counterexample :
    ((needs.init [CTy.IPrint, CTy.IDuck] : needs Nat).set .StdoutDuck (.byValue 0)).1
        = .error (.invalid_argument "Type specified is not a need!")
    ∧ ((needs.init [CTy.IPrint, CTy.IDuck] : needs Nat).set .StdoutDuck (.byValue 0)).1
        ≠ .error (.invalid_argument "type specified is not a need")
    ∧ ((needs.init [CTy.IPrint, CTy.IDuck] : needs Nat).get .StdoutDuck).1
        ≠ .error (.invalid_argument "type specified is not a need") :=
  ⟨by decide, by decide, by decide⟩

/-- C2 (amended): for every type `t` not in the declared capability list,
every `set` overload and `get` fail with `std::invalid_argument` carrying the
message `"Type specified is not a need!"`, leaving the container unchanged. -/
theorem C2_undeclared_rejected {V : Type} (decl : List CTy) (t : CTy) (h : t ∉ decl) :
    (∀ arg : set_arg V, (needs.init decl : needs V).set t arg
        = (.error (.invalid_argument "Type specified is not a need!"), needs.init decl))
    ∧ (needs.init decl : needs V).get t
        = (.error (.invalid_argument "Type specified is not a need!"), needs.init decl) := by
  have hc : mapContains (needs.init decl : needs V).values (type_id t) = false := by
    have hx : ¬(mapContains (needs.init decl : needs V).values (type_id t) = true) :=
      fun hx => h ((needs.contains_init_iff decl t).1 hx)
    simpa using hx
  exact ⟨fun arg => needs.set_of_undeclared _ t arg hc, needs.get_of_undeclared _ t hc⟩

/-- C2 witness: concrete run of the amended claim with `IDuck` not declared. -/
theorem C2_undeclared_rejected_witness :
    CTy.IDuck ∉ [CTy.IPrint]
    ∧ ((needs.init [CTy.IPrint] : needs Nat).set .IDuck (.byValue 0)
        = (.error (.invalid_argument "Type specified is not a need!"), needs.init [CTy.IPrint]))
    ∧ ((needs.init [CTy.IPrint] : needs Nat).get .IDuck
        = (.error (.invalid_argument "Type specified is not a need!"), needs.init [CTy.IPrint])) :=
  ⟨by decide,
   (@C2_undeclared_rejected Nat [CTy.IPrint] CTy.IDuck (by decide)).1 (.byValue 0),
   (@C2_undeclared_rejected Nat [CTy.IPrint] CTy.IDuck (by decide)).2⟩

/-- C3 counterexample: on a fresh container declared for `IPrint, IDuck`,
`get<IPrint>()` throws `std::runtime_error` whose message is
`"Need type never set!"` (needs.hpp:159), not `"need never set"` as quoted by
the claim. -/
theorem C3_message_counterexample :
    ((needs.init [CTy.IPrint, CTy.IDuck] : needs Nat).get .IPrint).1
        = .error (.runtime_error "Need type never set!")
    ∧ ((needs.init [CTy.IPrint, CTy.IDuck] : needs Nat).get .IPrint).1
        ≠ .error (.runtime_error "need never set") :=
  ⟨by decide, by decide⟩

/-- C3 (amended): for every capability type `t` declared for the container,
`get` on a freshly constructed container fails with `std::runtime_error`
carrying the message `"Need type never set!"`, leaving the container
unchanged. -/
theorem C3_fresh_get_unset {V : Type} (decl : List CTy) (t : CTy) (h : t ∈ decl) :
    (needs.init decl : needs V).get t
      = (.error (.runtime_error "Need type never set!"), needs.init decl) := by
  have hc : mapContains (needs.init decl : needs V).values (type_id t) = true :=
    (needs.contains_init_iff decl t).2 h
  cases hl : mapLookup (needs.init decl : needs V).values (type_id t) with
  | none => simp [mapContains, hl] at hc
  | some w =>
    have hw : w = none :=
      needs.init_values_none decl (type_id t, w) (mapLookup_mem _ _ _ hl)
    subst hw
    simp [needs.get, needs.verify_type, hc, mapIndex, hl]

/-- C3 witness: concrete run on a fresh container declared for both demo
capabilities. -/
theorem C3_fresh_get_unset_witness :
    CTy.IDuck ∈ [CTy.IPrint, CTy.IDuck]
    ∧ (needs.init [CTy.IPrint, CTy.IDuck] : needs Nat).get .IDuck
        = (.error (.runtime_error "Need type never set!"), needs.init [CTy.IPrint, CTy.IDuck]) :=
  ⟨by decide, @C3_fresh_get_unset Nat [CTy.IPrint, CTy.IDuck] CTy.IDuck (by decide)⟩

/-- C4: for a declared capability type `t` and any value `v`, `set<T>(v)` (by
value) succeeds and a subsequent `get<T>()` returns a pointer into the
installed `value_wrapper`, whose pointed-to value is exactly the stored `v`
(round-trip). -/
theorem C4_set_get_roundtrip {V : Type} (s : needs V) (t : CTy) (v : V)
    (h : mapContains s.values (type_id t) = true) :
    (s.set t (.byValue v)).1 = .ok ()
    ∧ (((s.set t (.byValue v)).2).get t).1 = .ok (.toOwned v) := by
  cases hl : mapLookup s.values (type_id t) with
  | none => simp [mapContains, hl] at h
  | some prev =>
    rw [needs.set_of_declared s t (.byValue v) prev (.value v) hl rfl]
    refine ⟨rfl, ?_⟩
    rw [needs.get_after_put _ t (.value v)
      (mapLookup_mapPut_self s.values (type_id t) (some (.value v)))]
    rfl

/-- C4 witness: concrete round-trip through a container declared for
`IPrint`. -/
theorem C4_set_get_roundtrip_witness :
    mapContains (needs.init [CTy.IPrint] : needs Nat).values (type_id .IPrint) = true
    ∧ (((needs.init [CTy.IPrint] : needs Nat).set .IPrint (.byValue 5)).1 = .ok ()
      ∧ ((((needs.init [CTy.IPrint] : needs Nat).set .IPrint (.byValue 5)).2).get .IPrint).1
          = .ok (.toOwned 5)) :=
  ⟨by decide, @C4_set_get_roundtrip Nat (needs.init [CTy.IPrint]) .IPrint 5 (by decide)⟩

/-- C5: each pointer-holding wrapper constructor rejects a null/empty input
with `std::invalid_argument` (the Null-ownership-transfer error), accepts any
non-null input, and its `get` then returns the address it was given. -/
theorem C5_wrapper_null_checks (V : Type) (a : Nat) :
    (ptr_wrapper.ofRaw none : Except CppError (Wrapper V))
        = .error (.invalid_argument "Null raw pointer!")
    ∧ (uptr_wrapper.mk none : Except CppError (Wrapper V))
        = .error (.invalid_argument "Null unique pointer!")
    ∧ (sptr_wrapper.mk none : Except CppError (Wrapper V))
        = .error (.invalid_argument "Null shared pointer!")
    ∧ (ptr_wrapper.ofRaw (some a) : Except CppError (Wrapper V)) = .ok (.ptr a)
    ∧ (uptr_wrapper.mk (some a) : Except CppError (Wrapper V)) = .ok (.uptr a)
    ∧ (sptr_wrapper.mk (some a) : Except CppError (Wrapper V)) = .ok (.sptr a)
    ∧ (Wrapper.ptr a : Wrapper V).get = .toHeap a
    ∧ (Wrapper.uptr a : Wrapper V).get = .toHeap a
    ∧ (Wrapper.sptr a : Wrapper V).get = .toHeap a :=
  ⟨rfl, rfl, rfl, rfl, rfl, rfl, rfl, rfl, rfl⟩

/-- C6: re-setting an already-populated slot succeeds, installs exactly the
newly constructed wrapper, runs the destructor of the previous wrapper (the
`destroyed` trace grows by exactly that wrapper), and a subsequent `get`
returns the new wrapper's pointer. -/
theorem C6_reset_replaces {V : Type} (s : needs V) (t : CTy) (w w' : Wrapper V)
    (arg : set_arg V) (hslot : s.slot t = some (some w))
    (hmk : arg.make_wrapper = .ok w') :
    (s.set t arg).1 = .ok ()
    ∧ (s.set t arg).2.slot t = some (some w')
    ∧ (s.set t arg).2.destroyed = s.destroyed ++ [w]
    ∧ ((s.set t arg).2.get t).1 = .ok w'.get := by
  have hl : mapLookup s.values (type_id t) = some (some w) := hslot
  rw [needs.set_of_declared s t arg (some w) w' hl hmk]
  refine ⟨rfl, ?_, rfl, ?_⟩
  · simpa [needs.slot] using mapLookup_mapPut_self s.values (type_id t) (some w')
  · rw [needs.get_after_put _ t w' (mapLookup_mapPut_self s.values (type_id t) (some w'))]

/-- C6 witness: a container whose `IPrint` slot holds the value 5 is re-set to
the value 7; the old wrapper is destroyed and `get` sees only the new one. -/
theorem C6_reset_replaces_witness :
    c6_state.slot .IPrint = some (some (.value 5))
    ∧ ((c6_state.set .IPrint (.byValue 7)).1 = .ok ()
      ∧ (c6_state.set .IPrint (.byValue 7)).2.slot .IPrint = some (some (.value 7))
      ∧ (c6_state.set .IPrint (.byValue 7)).2.destroyed = c6_state.destroyed ++ [.value 5]
      ∧ ((c6_state.set .IPrint (.byValue 7)).2.get .IPrint).1
          = .ok ((Wrapper.value 7).get)) :=
  ⟨by decide,
   @C6_reset_replaces Nat c6_state .IPrint (.value 5) (.value 7) (.byValue 7) (by decide) rfl⟩

/-- C7: `get` never mutates the container: whatever the outcome (success,
undeclared-capability error, or unset-capability error), the post-state equals
the pre-state, slot for slot, on every container state. -/
theorem C7_get_never_mutates {V : Type} (s : needs V) (t : CTy) : (s.get t).2 = s :=
  needs.get_state s t

/-- C8: the per-type identifier is deterministic and injective on the types of
the repository: two types yield the same identifier exactly when they are the
same type. -/
theorem C8_type_id_injective_deterministic :
    ∀ t₁ t₂ : CTy, type_id t₁ = type_id t₂ ↔ t₁ = t₂ := by
  intro t₁ t₂
  cases t₁ <;> cases t₂ <;> decide

/-- C9: the slot set is fixed at construction: a fresh container has exactly
one slot per declared capability type (its keys are exactly the identifiers of
the declared types, without duplicates), and neither `set` nor `get` ever adds
or removes a slot, on any container state. -/
theorem C9_slots_fixed {V : Type} (decl : List CTy) (s : needs V) (t : CTy)
    (arg : set_arg V) :
    ((type_id t ∈ (needs.init decl : needs V).keys ↔ t ∈ decl)
      ∧ ((needs.init decl : needs V).keys).Nodup)
    ∧ ((s.set t arg).2).keys = s.keys
    ∧ ((s.get t).2).keys = s.keys := by
  refine ⟨⟨?_, needs.init_keys_nodup decl⟩, needs.set_keys s t arg, ?_⟩
  · rw [needs.keys, mem_keys_iff_contains]
    exact needs.contains_init_iff decl t
  · rw [needs.get_state]

/-- C10: `set` is atomic on failure: whenever any `set` overload throws
(undeclared type rejected by `verify_type`, or null input rejected by the
wrapper constructor inside the `new` expression), the container state is
exactly what it was before the call. -/
theorem C10_set_atomic_on_failure {V : Type} (s : needs V) (t : CTy) (arg : set_arg V)
    (e : CppError) (h : (s.set t arg).1 = .error e) : (s.set t arg).2 = s := by
  cases hv : s.verify_type t with
  | error e' => simp [needs.set, hv]
  | ok key =>
    cases hw : arg.make_wrapper with
    | error e' => simp [needs.set, hv, hw]
    | ok w => simp [needs.set, hv, hw] at h

/-- C10 witness: setting a declared slot from a null raw pointer throws from
the `ptr_wrapper` constructor and leaves the fresh container unchanged. -/
theorem C10_set_atomic_on_failure_witness :
    ((needs.init [CTy.IPrint] : needs Nat).set .IPrint (.byRawPtr none)).1
        = .error (.invalid_argument "Null raw pointer!")
    ∧ ((needs.init [CTy.IPrint] : needs Nat).set .IPrint (.byRawPtr none)).2
        = needs.init [CTy.IPrint] :=
  ⟨by decide,
   @C10_set_atomic_on_failure Nat (needs.init [CTy.IPrint]) .IPrint (.byRawPtr none)
     (.invalid_argument "Null raw pointer!") (by decide)⟩
